import Mathlib

/-!
Verification of the atmospheric-scattering post-process pipeline of this
repository.  The per-pixel shader routines of res/shaders/sky-shader.js are
embedded as functions over the reals, and the host-side compositor logic of
res/components/sky-follow-camera.js is embedded as explicit state passing.
-/

set_option maxHeartbeats 1000000

noncomputable section

/-- Three-component vector of reals, embedding the GLSL vec3 type used by
res/shaders/sky-shader.js. -/
structure Vec3 where
  x : ℝ
  y : ℝ
  z : ℝ

namespace Vec3

instance : Add Vec3 := ⟨fun a b => ⟨a.x + b.x, a.y + b.y, a.z + b.z⟩⟩

instance : Sub Vec3 := ⟨fun a b => ⟨a.x - b.x, a.y - b.y, a.z - b.z⟩⟩

instance : Neg Vec3 := ⟨fun a => ⟨-a.x, -a.y, -a.z⟩⟩

instance : Mul Vec3 := ⟨fun a b => ⟨a.x * b.x, a.y * b.y, a.z * b.z⟩⟩

instance : SMul ℝ Vec3 := ⟨fun t a => ⟨t * a.x, t * a.y, t * a.z⟩⟩

@[simp] theorem add_x (a b : Vec3) : (a + b).x = a.x + b.x := rfl

@[simp] theorem add_y (a b : Vec3) : (a + b).y = a.y + b.y := rfl

@[simp] theorem add_z (a b : Vec3) : (a + b).z = a.z + b.z := rfl

@[simp] theorem sub_x (a b : Vec3) : (a - b).x = a.x - b.x := rfl

@[simp] theorem sub_y (a b : Vec3) : (a - b).y = a.y - b.y := rfl

@[simp] theorem sub_z (a b : Vec3) : (a - b).z = a.z - b.z := rfl

@[simp] theorem neg_x (a : Vec3) : (-a).x = -a.x := rfl

@[simp] theorem neg_y (a : Vec3) : (-a).y = -a.y := rfl

@[simp] theorem neg_z (a : Vec3) : (-a).z = -a.z := rfl

@[simp] theorem mul_x (a b : Vec3) : (a * b).x = a.x * b.x := rfl

@[simp] theorem mul_y (a b : Vec3) : (a * b).y = a.y * b.y := rfl

@[simp] theorem mul_z (a b : Vec3) : (a * b).z = a.z * b.z := rfl

@[simp] theorem smul_x (t : ℝ) (a : Vec3) : (t • a).x = t * a.x := rfl

@[simp] theorem smul_y (t : ℝ) (a : Vec3) : (t • a).y = t * a.y := rfl

@[simp] theorem smul_z (t : ℝ) (a : Vec3) : (t • a).z = t * a.z := rfl

@[ext] theorem ext' {a b : Vec3} (hx : a.x = b.x) (hy : a.y = b.y)
    (hz : a.z = b.z) : a = b := by
  cases a; cases b; simp_all

/-- GLSL dot product. -/
def dot (a b : Vec3) : ℝ := a.x * b.x + a.y * b.y + a.z * b.z

/-- GLSL length: Euclidean norm. -/
def length (a : Vec3) : ℝ := Real.sqrt (dot a a)

/-- GLSL exp applied componentwise to a vec3. -/
def vexp (a : Vec3) : Vec3 := ⟨Real.exp a.x, Real.exp a.y, Real.exp a.z⟩

@[simp] theorem vexp_x (a : Vec3) : (vexp a).x = Real.exp a.x := rfl

@[simp] theorem vexp_y (a : Vec3) : (vexp a).y = Real.exp a.y := rfl

@[simp] theorem vexp_z (a : Vec3) : (vexp a).z = Real.exp a.z := rfl

/-- GLSL normalize: the vector scaled by the inverse of its length. -/
def normalize (a : Vec3) : Vec3 := (1 / length a) • a

/-- All three components are non-negative. -/
def Nonneg (a : Vec3) : Prop := 0 ≤ a.x ∧ 0 ≤ a.y ∧ 0 ≤ a.z

end Vec3

/-- Embedding of raySphereIntersect (res/shaders/sky-shader.js, lines 53-78):
solves the line-sphere quadratic and returns the pair
(distance to the sphere, distance through the sphere). -/
def raySphereIntersect (sphereCenter : Vec3) (sphereRadius : ℝ)
    (rayOrigin : Vec3) (rayDirection : Vec3) : ℝ × ℝ :=
  let offset := rayOrigin - sphereCenter
  let a := Vec3.dot rayDirection rayDirection
  let b := 2 * Vec3.dot offset rayDirection
  let c := Vec3.dot offset offset - sphereRadius * sphereRadius
  let discriminant := b * b - 4 * a * c
  if discriminant < 0 then (-1, 0)
  else
    let sqrtDiscriminant := Real.sqrt discriminant
    let t0 := (-b - sqrtDiscriminant) / (2 * a)
    let t1 := (-b + sqrtDiscriminant) / (2 * a)
    if t1 < 0 then (-1, 0)
    else if t0 < 0 then (0, t1)
    else (t0, t1 - t0)

/-- Modelled from the spec: the four-way case analysis of section 4.3 for the
ray-sphere intersection (discriminant negative; both roots negative; origin
inside the sphere; otherwise), written from the spec words so that it can be
compared against raySphereIntersect, which is embedded from the source. -/
def raySphereIntersectSpecCases (sphereCenter : Vec3) (sphereRadius : ℝ)
    (rayOrigin : Vec3) (rayDirection : Vec3) : ℝ × ℝ :=
  let offset := rayOrigin - sphereCenter
  let a := Vec3.dot rayDirection rayDirection
  let b := 2 * Vec3.dot offset rayDirection
  let c := Vec3.dot offset offset - sphereRadius * sphereRadius
  let discriminant := b * b - 4 * a * c
  if discriminant < 0 then (-1, 0)
  else
    let t0 := (-b - Real.sqrt discriminant) / (2 * a)
    let t1 := (-b + Real.sqrt discriminant) / (2 * a)
    if t0 < 0 ∧ t1 < 0 then (-1, 0)
    else if t0 < 0 ∧ 0 ≤ t1 then (0, t1)
    else (t0, t1 - t0)

/-- Scalar form of the branch structure of raySphereIntersect compared against
the branch structure described by the spec, for a positive quadratic leading
coefficient. -/
theorem raySphere_branch_eq (a b c' : ℝ) (ha : 0 < a) :
    (if b * b - 4 * a * c' < 0 then ((-1:ℝ), (0:ℝ))
     else
       if (-b + Real.sqrt (b * b - 4 * a * c')) / (2 * a) < 0 then (-1, 0)
       else if (-b - Real.sqrt (b * b - 4 * a * c')) / (2 * a) < 0 then
         (0, (-b + Real.sqrt (b * b - 4 * a * c')) / (2 * a))
       else ((-b - Real.sqrt (b * b - 4 * a * c')) / (2 * a),
         (-b + Real.sqrt (b * b - 4 * a * c')) / (2 * a) -
           (-b - Real.sqrt (b * b - 4 * a * c')) / (2 * a))) =
    (if b * b - 4 * a * c' < 0 then ((-1:ℝ), (0:ℝ))
     else
       if (-b - Real.sqrt (b * b - 4 * a * c')) / (2 * a) < 0 ∧
          (-b + Real.sqrt (b * b - 4 * a * c')) / (2 * a) < 0 then (-1, 0)
       else if (-b - Real.sqrt (b * b - 4 * a * c')) / (2 * a) < 0 ∧
          0 ≤ (-b + Real.sqrt (b * b - 4 * a * c')) / (2 * a) then
         (0, (-b + Real.sqrt (b * b - 4 * a * c')) / (2 * a))
       else ((-b - Real.sqrt (b * b - 4 * a * c')) / (2 * a),
         (-b + Real.sqrt (b * b - 4 * a * c')) / (2 * a) -
           (-b - Real.sqrt (b * b - 4 * a * c')) / (2 * a))) := by
  set s := Real.sqrt (b * b - 4 * a * c') with hsdef
  have hs0 : 0 ≤ s := Real.sqrt_nonneg _
  have h01 : (-b - s) / (2 * a) ≤ (-b + s) / (2 * a) :=
    div_le_div_of_nonneg_right (by linarith) (by linarith)
  by_cases h1 : b * b - 4 * a * c' < 0
  · rw [if_pos h1, if_pos h1]
  · rw [if_neg h1, if_neg h1]
    by_cases h2 : (-b + s) / (2 * a) < 0
    · rw [if_pos h2, if_pos ⟨by linarith, h2⟩]
    · rw [if_neg h2]
      by_cases h3 : (-b - s) / (2 * a) < 0
      · rw [if_pos h3, if_neg (fun hh => h2 hh.2), if_pos ⟨h3, by linarith⟩]
      · rw [if_neg h3, if_neg (fun hh => h3 hh.1), if_neg (fun hh => h3 hh.1)]

/-- C4: raySphereIntersect implements exactly the spec case analysis of the
quadratic line-sphere solution, and for a sphere of radius r centered at the
origin, a ray from (0,0,-2r) in direction +z yields entry r and traversal
length 2r. -/
theorem raySphereIntersect_cases_and_instance :
    (∀ (sphereCenter : Vec3) (sphereRadius : ℝ) (rayOrigin rayDirection : Vec3),
      0 < Vec3.dot rayDirection rayDirection →
      raySphereIntersect sphereCenter sphereRadius rayOrigin rayDirection =
        raySphereIntersectSpecCases sphereCenter sphereRadius rayOrigin rayDirection) ∧
    (∀ r : ℝ, 0 < r →
      raySphereIntersect ⟨0, 0, 0⟩ r ⟨0, 0, -(2 * r)⟩ ⟨0, 0, 1⟩ = (r, 2 * r)) := by
  constructor
  · intro C R O D hD
    exact raySphere_branch_eq (Vec3.dot D D) (2 * Vec3.dot (O - C) D)
      (Vec3.dot (O - C) (O - C) - R * R) hD
  · intro r hr
    simp only [raySphereIntersect, Vec3.dot, Vec3.sub_x, Vec3.sub_y, Vec3.sub_z]
    norm_num
    rw [show (2 * (2 * r) * (2 * (2 * r)) - 4 * (2 * r * (2 * r) - r * r) : ℝ) = (2 * r) ^ 2 by
        ring,
      Real.sqrt_sq (by linarith)]
    rw [if_neg (by push_neg; nlinarith), if_neg (by push_neg; linarith),
      if_neg (by push_neg; linarith)]
    rw [Prod.mk.injEq]
    constructor <;> ring

/-- Witness for C4 at the concrete radius r = 1. -/
theorem raySphereIntersect_cases_and_instance_witness :
    raySphereIntersect ⟨0, 0, 0⟩ 1 ⟨0, 0, -(2 * 1)⟩ ⟨0, 0, 1⟩ = (1, 2 * 1) :=
  raySphereIntersect_cases_and_instance.2 1 one_pos

/-- Scalar form of the sentinel invariant of raySphereIntersect. -/
theorem raySphere_branch_invariant (a b c' : ℝ) (ha : 0 < a) :
    0 ≤ (if b * b - 4 * a * c' < 0 then ((-1:ℝ), (0:ℝ))
     else
       if (-b + Real.sqrt (b * b - 4 * a * c')) / (2 * a) < 0 then (-1, 0)
       else if (-b - Real.sqrt (b * b - 4 * a * c')) / (2 * a) < 0 then
         (0, (-b + Real.sqrt (b * b - 4 * a * c')) / (2 * a))
       else ((-b - Real.sqrt (b * b - 4 * a * c')) / (2 * a),
         (-b + Real.sqrt (b * b - 4 * a * c')) / (2 * a) -
           (-b - Real.sqrt (b * b - 4 * a * c')) / (2 * a))).2 ∧
    ((if b * b - 4 * a * c' < 0 then ((-1:ℝ), (0:ℝ))
     else
       if (-b + Real.sqrt (b * b - 4 * a * c')) / (2 * a) < 0 then (-1, 0)
       else if (-b - Real.sqrt (b * b - 4 * a * c')) / (2 * a) < 0 then
         (0, (-b + Real.sqrt (b * b - 4 * a * c')) / (2 * a))
       else ((-b - Real.sqrt (b * b - 4 * a * c')) / (2 * a),
         (-b + Real.sqrt (b * b - 4 * a * c')) / (2 * a) -
           (-b - Real.sqrt (b * b - 4 * a * c')) / (2 * a))).1 = -1 ∨
      0 ≤ (if b * b - 4 * a * c' < 0 then ((-1:ℝ), (0:ℝ))
     else
       if (-b + Real.sqrt (b * b - 4 * a * c')) / (2 * a) < 0 then (-1, 0)
       else if (-b - Real.sqrt (b * b - 4 * a * c')) / (2 * a) < 0 then
         (0, (-b + Real.sqrt (b * b - 4 * a * c')) / (2 * a))
       else ((-b - Real.sqrt (b * b - 4 * a * c')) / (2 * a),
         (-b + Real.sqrt (b * b - 4 * a * c')) / (2 * a) -
           (-b - Real.sqrt (b * b - 4 * a * c')) / (2 * a))).1) := by
  set s := Real.sqrt (b * b - 4 * a * c') with hsdef
  have hs0 : 0 ≤ s := Real.sqrt_nonneg _
  have h01 : (-b - s) / (2 * a) ≤ (-b + s) / (2 * a) :=
    div_le_div_of_nonneg_right (by linarith) (by linarith)
  by_cases h1 : b * b - 4 * a * c' < 0
  · rw [if_pos h1]
    exact ⟨le_refl 0, Or.inl rfl⟩
  · rw [if_neg h1]
    by_cases h2 : (-b + s) / (2 * a) < 0
    · rw [if_pos h2]
      exact ⟨le_refl 0, Or.inl rfl⟩
    · rw [if_neg h2]
      by_cases h3 : (-b - s) / (2 * a) < 0
      · rw [if_pos h3]
        exact ⟨by simpa using le_of_not_lt h2, Or.inr (le_refl 0)⟩
      · rw [if_neg h3]
        exact ⟨by simp only; linarith, Or.inr (by simpa using le_of_not_lt h3)⟩

/-- C10: for any sphere and any ray with a nonzero direction, the returned
traversal length is non-negative and the returned entry distance is either the
sentinel -1 or non-negative. -/
theorem raySphereIntersect_sentinel_invariant :
    ∀ (sphereCenter : Vec3) (sphereRadius : ℝ) (rayOrigin rayDirection : Vec3),
      0 < Vec3.dot rayDirection rayDirection →
      0 ≤ (raySphereIntersect sphereCenter sphereRadius rayOrigin rayDirection).2 ∧
      ((raySphereIntersect sphereCenter sphereRadius rayOrigin rayDirection).1 = -1 ∨
        0 ≤ (raySphereIntersect sphereCenter sphereRadius rayOrigin rayDirection).1) := by
  intro C R O D hD
  exact raySphere_branch_invariant (Vec3.dot D D) (2 * Vec3.dot (O - C) D)
    (Vec3.dot (O - C) (O - C) - R * R) hD

/-- Witness for C10 at a concrete sphere and ray. -/
theorem raySphereIntersect_sentinel_invariant_witness :
    0 ≤ (raySphereIntersect ⟨5, 0, 0⟩ 1 ⟨0, 0, 0⟩ ⟨1, 0, 0⟩).2 ∧
    ((raySphereIntersect ⟨5, 0, 0⟩ 1 ⟨0, 0, 0⟩ ⟨1, 0, 0⟩).1 = -1 ∨
      0 ≤ (raySphereIntersect ⟨5, 0, 0⟩ 1 ⟨0, 0, 0⟩ ⟨1, 0, 0⟩).1) :=
  raySphereIntersect_sentinel_invariant ⟨5, 0, 0⟩ 1 ⟨0, 0, 0⟩ ⟨1, 0, 0⟩
    (by norm_num [Vec3.dot])

/-- Loop bound MAX_OPTICAL_DEPTH_SAMPLES of sky-shader.js (line 45). -/
def MAX_OPTICAL_DEPTH_SAMPLES : ℕ := 16

/-- Loop bound MAX_IN_SCATTERING_POINTS of sky-shader.js (line 46). -/
def MAX_IN_SCATTERING_POINTS : ℕ := 16

/-- The per-body uniforms consumed by the scattering routines of
sky-shader.js. -/
structure AtmosphereUniforms where
  uLightDir : Vec3
  uPlanetRadius : ℝ
  uPlanetCenter : Vec3
  uScatterCoefficients : Vec3
  upAtmosphereRadius : ℝ
  upDensityFalloff : ℝ

/-- Embedding of densityAtPoint (sky-shader.js, lines 80-85). -/
def densityAtPoint (u : AtmosphereUniforms) (point : Vec3) : ℝ :=
  let heightAboveSurface := Vec3.length (point - u.uPlanetCenter) - u.uPlanetRadius
  let scaledHeight := heightAboveSurface / (u.upAtmosphereRadius - u.uPlanetRadius)
  Real.exp (-scaledHeight * u.upDensityFalloff) * (1 - scaledHeight)

/-- The body of the opticalDepth loop of sky-shader.js, iterated a given
number of further times from the state (samplePoint, accumulated depth). -/
def opticalDepthGo (u : AtmosphereUniforms) (rayDirection : Vec3) (stepSize : ℝ) :
    ℕ → Vec3 × ℝ → Vec3 × ℝ
  | 0, state => state
  | n + 1, (samplePoint, acc) =>
      opticalDepthGo u rayDirection stepSize n
        (samplePoint + stepSize • rayDirection,
          acc + densityAtPoint u samplePoint * stepSize)

/-- Embedding of opticalDepth (sky-shader.js, lines 87-98). -/
def opticalDepth (u : AtmosphereUniforms) (rayOrigin rayDirection : Vec3)
    (rayLength : ℝ) : ℝ :=
  (opticalDepthGo u rayDirection (rayLength / ((MAX_OPTICAL_DEPTH_SAMPLES - 1 : ℕ) : ℝ))
    MAX_OPTICAL_DEPTH_SAMPLES (rayOrigin, 0)).2

/-- The body of the calculateLightInteraction loop of sky-shader.js.  The
state is (inScatterPoint, inScatteredLight, viewRayOpticalDepth); the second
argument is the loop index i used in the view-ray optical-depth length. -/
def calculateLightInteractionGo (u : AtmosphereUniforms) (rayDirection : Vec3)
    (stepSize : ℝ) : ℕ → ℕ → Vec3 × Vec3 × ℝ → Vec3 × Vec3 × ℝ
  | 0, _, state => state
  | n + 1, i, (inScatterPoint, inScatteredLight, _) =>
      let sunRayLength := (raySphereIntersect u.uPlanetCenter u.upAtmosphereRadius
        inScatterPoint u.uLightDir).2
      let sunRayOpticalDepth := opticalDepth u inScatterPoint u.uLightDir sunRayLength
      let viewRayOpticalDepth := opticalDepth u inScatterPoint (-rayDirection)
        (stepSize * (i : ℝ))
      let transmitance := Vec3.vexp (-((sunRayOpticalDepth + viewRayOpticalDepth) •
        u.uScatterCoefficients))
      let localDensity := densityAtPoint u inScatterPoint
      calculateLightInteractionGo u rayDirection stepSize n (i + 1)
        (inScatterPoint + stepSize • rayDirection,
          inScatteredLight + stepSize • (localDensity • transmitance * u.uScatterCoefficients),
          viewRayOpticalDepth)

/-- Embedding of calculateLightInteraction (sky-shader.js, lines 100-118). -/
def calculateLightInteraction (u : AtmosphereUniforms) (rayOrigin rayDirection : Vec3)
    (rayLength : ℝ) (finalColor : Vec3) : Vec3 :=
  let stepSize := rayLength / ((MAX_IN_SCATTERING_POINTS - 1 : ℕ) : ℝ)
  let result := calculateLightInteractionGo u rayDirection stepSize
    MAX_IN_SCATTERING_POINTS 0 (rayOrigin, ⟨0, 0, 0⟩, 0)
  let originalColorTransmitance := Real.exp (-result.2.2)
  originalColorTransmitance • finalColor + result.2.1

/-- The scattered-light accumulator of calculateLightInteraction, as a value
of its own: the inScatteredLight component of the final loop state. -/
def inScatteredLightAccum (u : AtmosphereUniforms) (rayOrigin rayDirection : Vec3)
    (rayLength : ℝ) : Vec3 :=
  (calculateLightInteractionGo u rayDirection
    (rayLength / ((MAX_IN_SCATTERING_POINTS - 1 : ℕ) : ℝ))
    MAX_IN_SCATTERING_POINTS 0 (rayOrigin, ⟨0, 0, 0⟩, 0)).2.1

/-- Advancing the sample point by one step and then k steps is the same as
advancing it by k + 1 steps. -/
theorem sampleStep_shift (p d : Vec3) (step : ℝ) (k : ℕ) :
    p + step • d + ((k : ℝ) * step) • d = p + (((k + 1 : ℕ) : ℝ) * step) • d := by
  ext <;> push_cast <;> simp <;> ring

/-- The zeroth sample point is the ray origin. -/
theorem sampleStep_zero (p d : Vec3) (step : ℝ) :
    p + (((0 : ℕ) : ℝ) * step) • d = p := by
  ext <;> simp

/-- The opticalDepth loop computes the rectangle-rule sum of the density at
the successive sample points. -/
theorem opticalDepthGo_spec (u : AtmosphereUniforms) (d : Vec3) (step : ℝ) :
    ∀ (n : ℕ) (p : Vec3) (acc : ℝ),
      (opticalDepthGo u d step n (p, acc)).2 =
        acc + ∑ i ∈ Finset.range n, densityAtPoint u (p + ((i : ℝ) * step) • d) * step := by
  intro n
  induction n with
  | zero => intro p acc; simp [opticalDepthGo]
  | succ n ih =>
      intro p acc
      rw [opticalDepthGo, ih, Finset.sum_range_succ']
      have hpt : ∀ i : ℕ,
          densityAtPoint u (p + step • d + ((i : ℝ) * step) • d) * step =
            densityAtPoint u (p + (((i + 1 : ℕ) : ℝ) * step) • d) * step := by
        intro i; rw [sampleStep_shift]
      simp only [hpt, sampleStep_zero]
      ring

/-- C6: opticalDepth equals the fixed-count rectangle-rule sum with 16 samples
and step length/15: the sum over i = 0..15 of
density(origin + i (length/15) dir) (length/15). -/
theorem opticalDepth_eq_rectangle_sum (u : AtmosphereUniforms) (rayOrigin rayDirection : Vec3)
    (rayLength : ℝ) :
    opticalDepth u rayOrigin rayDirection rayLength =
      ∑ i ∈ Finset.range 16,
        densityAtPoint u (rayOrigin + ((i : ℝ) * (rayLength / 15)) • rayDirection) *
          (rayLength / 15) := by
  have h := opticalDepthGo_spec u rayDirection
    (rayLength / ((MAX_OPTICAL_DEPTH_SAMPLES - 1 : ℕ) : ℝ)) MAX_OPTICAL_DEPTH_SAMPLES rayOrigin 0
  rw [opticalDepth, h]
  norm_num [MAX_OPTICAL_DEPTH_SAMPLES]

/-- Any point whose distance to the planet center is at most the atmosphere
radius has non-negative density. -/
theorem densityAtPoint_nonneg (u : AtmosphereUniforms)
    (har : u.uPlanetRadius < u.upAtmosphereRadius) (p : Vec3)
    (hp : Vec3.length (p - u.uPlanetCenter) ≤ u.upAtmosphereRadius) :
    0 ≤ densityAtPoint u p := by
  have hH : 0 < u.upAtmosphereRadius - u.uPlanetRadius := by linarith
  have hs : (Vec3.length (p - u.uPlanetCenter) - u.uPlanetRadius) /
      (u.upAtmosphereRadius - u.uPlanetRadius) ≤ 1 :=
    (div_le_one hH).mpr (by linarith)
  simp only [densityAtPoint]
  exact mul_nonneg (Real.exp_pos _).le (by linarith)

/-- Invariant of the in-scattering loop: if the accumulator is componentwise
non-negative, the step is non-negative, the scatter coefficients are
non-negative and every remaining sample point lies within the atmosphere
radius, the final accumulator is componentwise non-negative. -/
theorem calculateLightInteractionGo_nonneg (u : AtmosphereUniforms) (d : Vec3)
    (step : ℝ) (hstep : 0 ≤ step) (har : u.uPlanetRadius < u.upAtmosphereRadius)
    (hc : Vec3.Nonneg u.uScatterCoefficients) :
    ∀ (n i : ℕ) (p acc : Vec3) (v : ℝ),
      Vec3.Nonneg acc →
      (∀ k, k < n →
        Vec3.length (p + ((k : ℝ) * step) • d - u.uPlanetCenter) ≤ u.upAtmosphereRadius) →
      Vec3.Nonneg (calculateLightInteractionGo u d step n i (p, acc, v)).2.1 := by
  intro n
  induction n with
  | zero =>
      intro i p acc v hacc _
      simpa [calculateLightInteractionGo] using hacc
  | succ n ih =>
      intro i p acc v hacc hin
      simp only [calculateLightInteractionGo]
      apply ih
      · have hd : 0 ≤ densityAtPoint u p := by
          apply densityAtPoint_nonneg u har
          have h0 := hin 0 (Nat.succ_pos n)
          rwa [sampleStep_zero] at h0
        obtain ⟨hcx, hcy, hcz⟩ := hc
        obtain ⟨hax, hay, haz⟩ := hacc
        refine ⟨?_, ?_, ?_⟩ <;>
          simp only [Vec3.add_x, Vec3.add_y, Vec3.add_z, Vec3.smul_x, Vec3.smul_y,
            Vec3.smul_z, Vec3.mul_x, Vec3.mul_y, Vec3.mul_z, Vec3.vexp_x, Vec3.vexp_y,
            Vec3.vexp_z, Vec3.neg_x, Vec3.neg_y, Vec3.neg_z]
        · exact add_nonneg hax
            (mul_nonneg hstep (mul_nonneg (mul_nonneg hd (Real.exp_pos _).le) hcx))
        · exact add_nonneg hay
            (mul_nonneg hstep (mul_nonneg (mul_nonneg hd (Real.exp_pos _).le) hcy))
        · exact add_nonneg haz
            (mul_nonneg hstep (mul_nonneg (mul_nonneg hd (Real.exp_pos _).le) hcz))
      · intro k hk
        have h1 := hin (k + 1) (by omega)
        rw [sampleStep_shift]
        exact h1

/-- C3: for a valid body, non-negative scatter coefficients and a view-ray
segment whose 16 sample points all lie within the atmosphere shell, every
channel of the in-scattered light accumulated by calculateLightInteraction is
non-negative. -/
theorem inScatteredLightAccum_nonneg (u : AtmosphereUniforms)
    (rayOrigin rayDirection : Vec3) (rayLength : ℝ)
    (hpr : 0 < u.uPlanetRadius) (har : u.uPlanetRadius < u.upAtmosphereRadius)
    (hf : 0 < u.upDensityFalloff) (hc : Vec3.Nonneg u.uScatterCoefficients)
    (hL : 0 ≤ rayLength)
    (hin : ∀ k, k < 16 →
      Vec3.length (rayOrigin + ((k : ℝ) * (rayLength / 15)) • rayDirection -
        u.uPlanetCenter) ≤ u.upAtmosphereRadius) :
    Vec3.Nonneg (inScatteredLightAccum u rayOrigin rayDirection rayLength) := by
  rw [inScatteredLightAccum,
    show (rayLength / ((MAX_IN_SCATTERING_POINTS - 1 : ℕ) : ℝ)) = rayLength / 15 by
      norm_num [MAX_IN_SCATTERING_POINTS]]
  apply calculateLightInteractionGo_nonneg u rayDirection (rayLength / 15)
    (by positivity) har hc
  · exact ⟨le_refl 0, le_refl 0, le_refl 0⟩
  · intro k hk
    exact hin k (by simpa [MAX_IN_SCATTERING_POINTS] using hk)

/-- Witness for C3 at a concrete body and a degenerate segment inside the
shell. -/
theorem inScatteredLightAccum_nonneg_witness :
    Vec3.Nonneg (inScatteredLightAccum ⟨⟨0, 0, 1⟩, 1, ⟨0, 0, 0⟩, ⟨0, 0, 0⟩, 2, 1⟩
      ⟨0, 0, 0⟩ ⟨0, 0, 1⟩ 0) := by
  apply inScatteredLightAccum_nonneg _ _ _ _ (by norm_num) (by norm_num) (by norm_num)
    ⟨le_refl 0, le_refl 0, le_refl 0⟩ (le_refl 0)
  intro k hk
  simp only [Vec3.length, Vec3.dot, Vec3.add_x, Vec3.add_y, Vec3.add_z, Vec3.sub_x,
    Vec3.sub_y, Vec3.sub_z, Vec3.smul_x, Vec3.smul_y, Vec3.smul_z]
  norm_num [Real.sqrt_zero]

/-- Scalar density profile of the shader: exp(-(h/H) falloff) (1 - h/H) is
strictly decreasing in the height h on the interval [0, H]. -/
theorem densityProfile_strictAnti (f H : ℝ) (hf : 0 < f) (hH : 0 < H)
    (h1 h2 : ℝ) (h01 : 0 ≤ h1) (h12 : h1 < h2) (h2H : h2 ≤ H) :
    Real.exp (-(h2 / H) * f) * (1 - h2 / H) <
      Real.exp (-(h1 / H) * f) * (1 - h1 / H) := by
  have hs1 : h1 / H < h2 / H := by
    apply div_lt_div_of_pos_right h12 hH
  have hs2 : h2 / H ≤ 1 := (div_le_one hH).mpr h2H
  have hs0 : 0 ≤ h1 / H := div_nonneg h01 hH.le
  have he : Real.exp (-(h2 / H) * f) < Real.exp (-(h1 / H) * f) :=
    Real.exp_lt_exp.mpr (by nlinarith)
  have hg2 : (0:ℝ) ≤ 1 - h2 / H := by linarith
  have hg1 : (0:ℝ) < 1 - h1 / H := by linarith
  calc Real.exp (-(h2 / H) * f) * (1 - h2 / H)
      ≤ Real.exp (-(h1 / H) * f) * (1 - h2 / H) :=
        mul_le_mul_of_nonneg_right he.le hg2
    _ < Real.exp (-(h1 / H) * f) * (1 - h1 / H) :=
        mul_lt_mul_of_pos_left (by linarith) (Real.exp_pos _)

/-- C5: for a valid body, the density is strictly decreasing in the height
above the surface on the shell interval [0, H], and attains its maximum over
that interval at height 0. -/
theorem densityAtPoint_strict_decreasing (u : AtmosphereUniforms)
    (hpr : 0 < u.uPlanetRadius) (har : u.uPlanetRadius < u.upAtmosphereRadius)
    (hf : 0 < u.upDensityFalloff) :
    (∀ p q : Vec3,
      0 ≤ Vec3.length (p - u.uPlanetCenter) - u.uPlanetRadius →
      Vec3.length (p - u.uPlanetCenter) - u.uPlanetRadius <
        Vec3.length (q - u.uPlanetCenter) - u.uPlanetRadius →
      Vec3.length (q - u.uPlanetCenter) - u.uPlanetRadius ≤
        u.upAtmosphereRadius - u.uPlanetRadius →
      densityAtPoint u q < densityAtPoint u p) ∧
    (∀ p q : Vec3,
      Vec3.length (q - u.uPlanetCenter) - u.uPlanetRadius = 0 →
      0 ≤ Vec3.length (p - u.uPlanetCenter) - u.uPlanetRadius →
      Vec3.length (p - u.uPlanetCenter) - u.uPlanetRadius ≤
        u.upAtmosphereRadius - u.uPlanetRadius →
      densityAtPoint u p ≤ densityAtPoint u q) := by
  have hH : (0:ℝ) < u.upAtmosphereRadius - u.uPlanetRadius := by linarith
  constructor
  · intro p q hp0 hpq hqH
    have main := densityProfile_strictAnti u.upDensityFalloff
      (u.upAtmosphereRadius - u.uPlanetRadius) hf hH
      (Vec3.length (p - u.uPlanetCenter) - u.uPlanetRadius)
      (Vec3.length (q - u.uPlanetCenter) - u.uPlanetRadius) hp0 hpq hqH
    simpa only [densityAtPoint] using main
  · intro p q hq0 hp0 hpH
    rcases eq_or_lt_of_le hp0 with heq | hlt
    · simp only [densityAtPoint]
      rw [hq0, ← heq]
    · have main := densityProfile_strictAnti u.upDensityFalloff
        (u.upAtmosphereRadius - u.uPlanetRadius) hf hH
        (Vec3.length (q - u.uPlanetCenter) - u.uPlanetRadius)
        (Vec3.length (p - u.uPlanetCenter) - u.uPlanetRadius)
        (le_of_eq hq0.symm) (by rw [hq0]; exact hlt) hpH
      simp only [densityAtPoint]
      exact le_of_lt main

/-- Witness for C5 at a concrete body: a surface point and a point at the top
of the shell. -/
theorem densityAtPoint_strict_decreasing_witness :
    densityAtPoint ⟨⟨0, 0, 1⟩, 1, ⟨0, 0, 0⟩, ⟨0, 0, 0⟩, 2, 1⟩ ⟨2, 0, 0⟩ <
      densityAtPoint ⟨⟨0, 0, 1⟩, 1, ⟨0, 0, 0⟩, ⟨0, 0, 0⟩, 2, 1⟩ ⟨1, 0, 0⟩ := by
  have hs4 : Real.sqrt 4 = 2 := by
    rw [show (4:ℝ) = 2 ^ 2 by norm_num, Real.sqrt_sq (by norm_num)]
  apply (densityAtPoint_strict_decreasing ⟨⟨0, 0, 1⟩, 1, ⟨0, 0, 0⟩, ⟨0, 0, 0⟩, 2, 1⟩
    (by norm_num) (by norm_num) (by norm_num)).1 ⟨1, 0, 0⟩ ⟨2, 0, 0⟩ <;>
    simp only [Vec3.length, Vec3.dot, Vec3.sub_x, Vec3.sub_y, Vec3.sub_z] <;>
    norm_num [Real.sqrt_one, hs4]

end

/-- Embedding of the scatter-coefficient computation shared by the setup of
atmospheric-post-processing (sky-follow-camera.js, lines 58-61) and by the
updateParameters of the GUI component: each channel is
(400 / wavelength)^4 * strength.  Host-side arithmetic, kept exact over the
rationals. -/
def scatterCoefficientsOf (waveLenghts : ℚ × ℚ × ℚ) (scatteringStrength : ℚ) :
    ℚ × ℚ × ℚ :=
  ((400 / waveLenghts.1) ^ 4 * scatteringStrength,
   (400 / waveLenghts.2.1) ^ 4 * scatteringStrength,
   (400 / waveLenghts.2.2) ^ 4 * scatteringStrength)

/-- C7: each derived scatter-coefficient channel equals
(referenceWavelength / wavelength)^4 * strength with reference wavelength 400;
the computation is a pure function of (wavelengths, strength), so repeated
evaluation at (700, 530, 440) with strength 1 reproduces the identical
vector; and all three channels are non-negative for positive inputs. -/
theorem scatterCoefficientsOf_spec :
    (∀ (w : ℚ × ℚ × ℚ) (s : ℚ),
      scatterCoefficientsOf w s =
        ((400 / w.1) ^ 4 * s, (400 / w.2.1) ^ 4 * s, (400 / w.2.2) ^ 4 * s)) ∧
    scatterCoefficientsOf (700, 530, 440) 1 = scatterCoefficientsOf (700, 530, 440) 1 ∧
    (∀ (w : ℚ × ℚ × ℚ) (s : ℚ), 0 < w.1 → 0 < w.2.1 → 0 < w.2.2 → 0 < s →
      0 ≤ (scatterCoefficientsOf w s).1 ∧ 0 ≤ (scatterCoefficientsOf w s).2.1 ∧
        0 ≤ (scatterCoefficientsOf w s).2.2) := by
  refine ⟨fun w s => rfl, rfl, fun w s h1 h2 h3 hs => ⟨?_, ?_, ?_⟩⟩ <;>
    exact mul_nonneg (by positivity) hs.le

/-- Witness for C7 at the reference wavelengths and unit strength. -/
theorem scatterCoefficientsOf_spec_witness :
    0 ≤ (scatterCoefficientsOf (700, 530, 440) 1).1 ∧
    0 ≤ (scatterCoefficientsOf (700, 530, 440) 1).2.1 ∧
    0 ≤ (scatterCoefficientsOf (700, 530, 440) 1).2.2 :=
  scatterCoefficientsOf_spec.2.2 (700, 530, 440) 1 (by norm_num) (by norm_num)
    (by norm_num) (by norm_num)

/-- Three-component vector of rationals: the exact host-side positions handled
by sky-follow-camera.js. -/
structure Vec3Q where
  x : ℚ
  y : ℚ
  z : ℚ
deriving DecidableEq

/-- Squared Euclidean distance between two positions. -/
def distSqQ (a b : Vec3Q) : ℚ :=
  (a.x - b.x) * (a.x - b.x) + (a.y - b.y) * (a.y - b.y) + (a.z - b.z) * (a.z - b.z)

/-- THREE.Vector3.distanceTo: the Euclidean distance between two positions. -/
noncomputable def distanceTo (a b : Vec3Q) : ℝ := Real.sqrt ((distSqQ a b : ℚ) : ℝ)

/-- A planet entry collected by findPlanets (sky-follow-camera.js,
lines 107-120); the element is an opaque handle. -/
structure PlanetEntry where
  element : ℕ
  position : Vec3Q
  atmosphereRadius : ℚ
  planetRadius : ℚ
deriving DecidableEq

/-- A {material, planet} pair of postProcessingMaterials; the material is an
opaque handle. -/
structure PostMaterial where
  material : ℕ
  planet : PlanetEntry
deriving DecidableEq

/-- The comparator of the per-frame sort in tock (sky-follow-camera.js,
lines 165-169): comparator(a, b) = distB - distA, so a precedes b exactly when
the camera distance of b is at most the camera distance of a.  Comparing
squared distances is equivalent to comparing distances (both are
non-negative) and is exact over the rationals. -/
def farToNear (cameraPos : Vec3Q) (a b : PostMaterial) : Bool :=
  decide (distSqQ cameraPos b.planet.position ≤ distSqQ cameraPos a.planet.position)

/-- The sortedMaterials list of tock: the materials sorted far to near by a
stable comparator sort. -/
def sortedMaterials (cameraPos : Vec3Q) (materials : List PostMaterial) :
    List PostMaterial :=
  materials.mergeSort (farToNear cameraPos)

theorem distSqQ_nonneg (a b : Vec3Q) : 0 ≤ distSqQ a b := by
  unfold distSqQ
  nlinarith [mul_self_nonneg (a.x - b.x), mul_self_nonneg (a.y - b.y),
    mul_self_nonneg (a.z - b.z)]

/-- Comparing Euclidean distances is the same as comparing squared
distances. -/
theorem distanceTo_le_iff (c a b : Vec3Q) :
    distanceTo c a ≤ distanceTo c b ↔ distSqQ c a ≤ distSqQ c b := by
  unfold distanceTo
  rw [Real.sqrt_le_sqrt_iff (by exact_mod_cast distSqQ_nonneg c b)]
  exact_mod_cast Iff.rfl

/-- C2: the compositor processes bodies far to near: for every camera position
and material list the sorted list is ordered by non-increasing camera
distance and is a permutation of the input; and for two bodies at camera
distances 10 and 20, the body at distance 20 comes first. -/
theorem sortedMaterials_far_to_near :
    (∀ (cameraPos : Vec3Q) (materials : List PostMaterial),
      (sortedMaterials cameraPos materials).Pairwise
        (fun a b => distanceTo cameraPos b.planet.position ≤
          distanceTo cameraPos a.planet.position) ∧
      (sortedMaterials cameraPos materials).Perm materials) ∧
    (distanceTo ⟨0, 0, 0⟩ ⟨10, 0, 0⟩ = 10 ∧ distanceTo ⟨0, 0, 0⟩ ⟨20, 0, 0⟩ = 20 ∧
      sortedMaterials ⟨0, 0, 0⟩
          [⟨1, ⟨1, ⟨10, 0, 0⟩, 2, 1⟩⟩, ⟨2, ⟨2, ⟨20, 0, 0⟩, 2, 1⟩⟩] =
        [⟨2, ⟨2, ⟨20, 0, 0⟩, 2, 1⟩⟩, ⟨1, ⟨1, ⟨10, 0, 0⟩, 2, 1⟩⟩]) := by
  refine ⟨fun cameraPos materials => ⟨?_, List.mergeSort_perm materials _⟩, ?_, ?_, ?_⟩
  · have htrans : ∀ a b c : PostMaterial, farToNear cameraPos a b = true →
        farToNear cameraPos b c = true → farToNear cameraPos a c = true := by
      intro a b c hab hbc
      simp only [farToNear, decide_eq_true_eq] at *
      exact le_trans hbc hab
    have htotal : ∀ a b : PostMaterial,
        (farToNear cameraPos a b || farToNear cameraPos b a) = true := by
      intro a b
      simp only [farToNear, Bool.or_eq_true, decide_eq_true_eq]
      exact le_total _ _
    refine (List.sorted_mergeSort htrans htotal materials).imp ?_
    intro a b hab
    rw [distanceTo_le_iff]
    simpa only [farToNear, decide_eq_true_eq] using hab
  · unfold distanceTo distSqQ
    norm_num
    rw [show (100:ℝ) = 10 ^ 2 by norm_num, Real.sqrt_sq (by norm_num)]
  · unfold distanceTo distSqQ
    norm_num
    rw [show (400:ℝ) = 20 ^ 2 by norm_num, Real.sqrt_sq (by norm_num)]
  · simp [sortedMaterials, List.mergeSort, List.merge, farToNear, distSqQ]
    norm_num

/-- Textures involved in the composite chain of tock: the color texture of
the temporary scene render target, or the contents of the on-screen
framebuffer after a given pass (the on-screen framebuffer is not a sampleable
texture object). -/
inductive CompositeTexture where
  | sceneRenderTexture
  | screenOutput (k : ℕ)
deriving DecidableEq

/-- One record per composite pass of tock (sky-follow-camera.js,
lines 171-176): the texture bound to tDiffuse for the pass, and the render
target the pass draws into (none is setRenderTarget(null), the screen). -/
structure PassRecord where
  source : CompositeTexture
  target : Option ℕ
deriving DecidableEq

/-- The forEach composite loop of tock: for every sorted material it binds
currentSource to tDiffuse, sets the render target to null (the screen), and
renders; the loop body never reassigns currentSource. -/
def compositeChain (currentSource : CompositeTexture) :
    List PostMaterial → List PassRecord
  | [] => []
  | _ :: rest => ⟨currentSource, none⟩ :: compositeChain currentSource rest

/-- C1 (evaluated at the failing input): with two registered bodies the
composite loop of tock binds the initial scene render texture as the source
of both passes and renders both passes to the screen; in particular the
second pass's source is the initial scene render, not the output produced by
the first pass. -/
theorem compositeChain_two_bodies :
    compositeChain CompositeTexture.sceneRenderTexture
        [⟨1, ⟨1, ⟨10, 0, 0⟩, 2, 1⟩⟩, ⟨2, ⟨2, ⟨20, 0, 0⟩, 2, 1⟩⟩] =
      [⟨CompositeTexture.sceneRenderTexture, none⟩,
        ⟨CompositeTexture.sceneRenderTexture, none⟩] ∧
    (CompositeTexture.sceneRenderTexture == CompositeTexture.screenOutput 0) = false := by
  exact ⟨rfl, rfl⟩

/-- Identifiers for the render targets touched by the per-frame operations. -/
inductive TargetId where
  | depthTarget
  | sceneTarget
  | other (n : ℕ)
deriving DecidableEq

/-- The renderer state observed through getRenderTarget/setRenderTarget: the
active render target; none is the default framebuffer. -/
structure RendererState where
  activeTarget : Option TargetId
deriving DecidableEq

/-- renderer.render: leaves the active target unchanged; if it throws, control
leaves the calling function with the state as it stands. -/
def renderCall (fails : Bool) (s : RendererState) :
    Except RendererState RendererState :=
  if fails then Except.error s else Except.ok s

/-- The per-material renders of the composite loop of tock
(setRenderTarget(null) then render), indexed so that the failure oracle can
make any individual render call throw. -/
def tockLoopRenders (failsAt : ℕ → Bool) (idx : ℕ) :
    List PostMaterial → RendererState → Except RendererState RendererState
  | [], s => Except.ok s
  | _ :: rest, s =>
      match renderCall (failsAt idx) { s with activeTarget := none } with
      | Except.error t => Except.error t
      | Except.ok t => tockLoopRenders failsAt (idx + 1) rest t

/-- Embedding of the render-target effects of tock (sky-follow-camera.js,
lines 146-178): early return when no materials exist; otherwise save the
active target, render the depth pass, render the scene into the color target,
run the composite loop, and restore the saved target at the end of the
function body.  A throwing render call propagates immediately, skipping
everything after it, including the restoration. -/
def tock (failsAt : ℕ → Bool) (materials : List PostMaterial)
    (s0 : RendererState) : Except RendererState RendererState :=
  if materials.length = 0 then Except.ok s0
  else
    let currentRenderTarget := s0.activeTarget
    match renderCall (failsAt 0)
        { s0 with activeTarget := some TargetId.depthTarget } with
    | Except.error t => Except.error t
    | Except.ok s1 =>
      match renderCall (failsAt 1)
          { s1 with activeTarget := some TargetId.sceneTarget } with
      | Except.error t => Except.error t
      | Except.ok s2 =>
        match tockLoopRenders failsAt 2 materials s2 with
        | Except.error t => Except.error t
        | Except.ok s3 => Except.ok { s3 with activeTarget := currentRenderTarget }

/-- Embedding of the render-target effects of the depth capture in the tick
of update-atmosphere-uniforms (sky-shader.js, lines 226-229): save the active
target, bind the depth target, render, restore. -/
def depthCaptureTick (fails : Bool) (s0 : RendererState) :
    Except RendererState RendererState :=
  let currentRenderTarget := s0.activeTarget
  match renderCall fails { s0 with activeTarget := some TargetId.depthTarget } with
  | Except.error t => Except.error t
  | Except.ok s1 => Except.ok { s1 with activeTarget := currentRenderTarget }

/-- Counterexample to C9 as stated: when the depth render inside tock throws,
tock exits with the depth target still bound, not the previously active
target. -/
theorem tock_failure_leaves_target_bound :
    tock (fun _ => true) [⟨1, ⟨1, ⟨10, 0, 0⟩, 2, 1⟩⟩] ⟨some (TargetId.other 0)⟩ =
      Except.error ⟨some TargetId.depthTarget⟩ ∧
    (some TargetId.depthTarget == some (TargetId.other 0)) = false := by
  exact ⟨rfl, by decide⟩

/-- C9 amended: on every non-throwing completion of tock and of the
depth-capture tick, the renderer's active target is restored to the value it
had before the operation began; when a render call throws, the restoration is
skipped and the exception propagates. -/
theorem renderTarget_restored_on_success :
    (∀ (failsAt : ℕ → Bool) (materials : List PostMaterial)
        (s0 s1 : RendererState),
      tock failsAt materials s0 = Except.ok s1 →
        s1.activeTarget = s0.activeTarget) ∧
    (∀ (fails : Bool) (s0 s1 : RendererState),
      depthCaptureTick fails s0 = Except.ok s1 →
        s1.activeTarget = s0.activeTarget) := by
  constructor
  · intro failsAt materials s0 s1 h
    unfold tock at h
    split at h
    · cases h
      rfl
    · split at h
      · cases h
      · split at h
        · cases h
        · split at h
          · cases h
          · cases h
            rfl
  · intro fails s0 s1 h
    unfold depthCaptureTick at h
    split at h
    · cases h
    · cases h
      rfl

/-- Witness for C9: a concrete non-throwing frame restores the previously
active target. -/
theorem renderTarget_restored_on_success_witness :
    tock (fun _ => false) [⟨1, ⟨1, ⟨10, 0, 0⟩, 2, 1⟩⟩] ⟨some (TargetId.other 3)⟩ =
      Except.ok ⟨some (TargetId.other 3)⟩ ∧
    (⟨some (TargetId.other 3)⟩ : RendererState).activeTarget =
      (⟨some (TargetId.other 3)⟩ : RendererState).activeTarget :=
  ⟨rfl, renderTarget_restored_on_success.1 (fun _ => false)
    [⟨1, ⟨1, ⟨10, 0, 0⟩, 2, 1⟩⟩] ⟨some (TargetId.other 3)⟩
    ⟨some (TargetId.other 3)⟩ rfl⟩

noncomputable section

/-- Two-component vector of reals: the vUv varying of the shader. -/
structure Vec2 where
  x : ℝ
  y : ℝ

/-- Four-component vector of reals, embedding the GLSL vec4 type. -/
structure Vec4 where
  x : ℝ
  y : ℝ
  z : ℝ
  w : ℝ

/-- Four-by-four real matrix, embedding the GLSL mat4 type. -/
def Mat4 : Type := Fin 4 → Fin 4 → ℝ

/-- GLSL mat4 * vec4. -/
def mulVec4 (m : Mat4) (v : Vec4) : Vec4 :=
  ⟨m 0 0 * v.x + m 0 1 * v.y + m 0 2 * v.z + m 0 3 * v.w,
   m 1 0 * v.x + m 1 1 * v.y + m 1 2 * v.z + m 1 3 * v.w,
   m 2 0 * v.x + m 2 1 * v.y + m 2 2 * v.z + m 2 3 * v.w,
   m 3 0 * v.x + m 3 1 * v.y + m 3 2 * v.z + m 3 3 * v.w⟩

/-- The full uniform environment of the scattering fragment shader: the
per-body uniforms together with the textures, camera position, camera planes
and camera matrices.  A texture is a function from UV coordinates to the
sampled value. -/
structure ShaderEnv extends AtmosphereUniforms where
  tDiffuse : Vec2 → Vec4
  tDepth : Vec2 → ℝ
  uCameraPos : Vec3
  cameraNear : ℝ
  cameraFar : ℝ
  cameraInverseProjection : Mat4
  cameraWorldMatrix : Mat4

/-- Embedding of linearizeDepth (sky-shader.js, lines 48-51). -/
def linearizeDepth (env : ShaderEnv) (depth : ℝ) : ℝ :=
  let z := depth * 2 - 1
  (2 * env.cameraNear * env.cameraFar) /
    (env.cameraFar + env.cameraNear - z * (env.cameraFar - env.cameraNear))

/-- The view-ray reconstruction of main (sky-shader.js, lines 124-132):
screen UV to NDC, to a near-plane clip position, through the inverse
projection, perspective divide, to world space, normalized. -/
def viewRayDirection (env : ShaderEnv) (vUv : Vec2) : Vec3 :=
  let ndc : Vec2 := ⟨vUv.x * 2 - 1, vUv.y * 2 - 1⟩
  let clipPos : Vec4 := ⟨ndc.x, ndc.y, -1, 1⟩
  let viewPos := mulVec4 env.cameraInverseProjection clipPos
  let viewPosDiv : Vec4 := ⟨viewPos.x / viewPos.w, viewPos.y / viewPos.w,
    viewPos.z / viewPos.w, viewPos.w / viewPos.w⟩
  let viewVector := mulVec4 env.cameraWorldMatrix
    ⟨viewPosDiv.x, viewPosDiv.y, viewPosDiv.z, 0⟩
  Vec3.normalize ⟨viewVector.x, viewVector.y, viewVector.z⟩

/-- The opaque-surface distance reconstruction of main (sky-shader.js,
lines 137-147), the non-background branch: unproject the depth sample and
measure the distance from the camera to the reconstructed world position. -/
def reconstructedRayDistance (env : ShaderEnv) (vUv : Vec2) : ℝ :=
  let ndc : Vec2 := ⟨vUv.x * 2 - 1, vUv.y * 2 - 1⟩
  let screenDepthNonLinear := env.tDepth vUv
  let linearDepth := linearizeDepth env screenDepthNonLinear
  let clipPosDepth : Vec4 := ⟨ndc.x, ndc.y, screenDepthNonLinear * 2 - 1, 1⟩
  let viewPosDepth := mulVec4 env.cameraInverseProjection clipPosDepth
  let viewPosDepthDiv : Vec4 := ⟨viewPosDepth.x / viewPosDepth.w,
    viewPosDepth.y / viewPosDepth.w, viewPosDepth.z / viewPosDepth.w,
    viewPosDepth.w / viewPosDepth.w⟩
  let worldPos4 := mulVec4 env.cameraWorldMatrix
    ⟨viewPosDepthDiv.x, viewPosDepthDiv.y, viewPosDepthDiv.z, 1⟩
  let worldPos : Vec3 := ⟨worldPos4.x, worldPos4.y, worldPos4.z⟩
  Vec3.length (worldPos - env.uCameraPos)

/-- Embedding of the fragment shader main (sky-shader.js, lines 120-175). -/
def main (env : ShaderEnv) (vUv : Vec2) : Vec4 :=
  let originalColor := env.tDiffuse vUv
  let rayOrigin := env.uCameraPos
  let rayDirection := viewRayDirection env vUv
  let screenDepthNonLinear := env.tDepth vUv
  let isBackground := screenDepthNonLinear ≥ 0.9999
  let rayDistance := if isBackground then 0 else reconstructedRayDistance env vUv
  let atmosphereHit := raySphereIntersect env.uPlanetCenter env.upAtmosphereRadius
    rayOrigin rayDirection
  let distanceToAtmosphere := atmosphereHit.1
  let distanceThroughAtmosphere := atmosphereHit.2
  let finalColor : Vec3 := ⟨originalColor.x, originalColor.y, originalColor.z⟩
  let finalColorOut :=
    if distanceToAtmosphere ≥ 0 ∧ distanceThroughAtmosphere > 0 then
      let dstThroughAtmosphere :=
        if ¬ isBackground then
          if rayDistance < distanceToAtmosphere then 0
          else if rayDistance < distanceToAtmosphere + distanceThroughAtmosphere then
            rayDistance - distanceToAtmosphere
          else distanceThroughAtmosphere
        else distanceThroughAtmosphere
      if dstThroughAtmosphere > 0 then
        let pointInAtmosphere := rayOrigin + distanceToAtmosphere • rayDirection
        calculateLightInteraction env.toAtmosphereUniforms pointInAtmosphere
          rayDirection dstThroughAtmosphere finalColor
      else finalColor
    else finalColor
  ⟨finalColorOut.x, finalColorOut.y, finalColorOut.z, 1⟩

/-- C8: a pixel whose view ray misses the atmosphere shell (negative entry or
non-positive traversal), and a pixel whose reconstructed opaque-surface
distance lies before the shell entry, both receive the original scene color
unchanged. -/
theorem main_passthrough (env : ShaderEnv) (vUv : Vec2) :
    (((raySphereIntersect env.uPlanetCenter env.upAtmosphereRadius env.uCameraPos
          (viewRayDirection env vUv)).1 < 0 ∨
        (raySphereIntersect env.uPlanetCenter env.upAtmosphereRadius env.uCameraPos
          (viewRayDirection env vUv)).2 ≤ 0) →
      main env vUv =
        ⟨(env.tDiffuse vUv).x, (env.tDiffuse vUv).y, (env.tDiffuse vUv).z, 1⟩) ∧
    ((¬ env.tDepth vUv ≥ 0.9999) →
      reconstructedRayDistance env vUv <
        (raySphereIntersect env.uPlanetCenter env.upAtmosphereRadius env.uCameraPos
          (viewRayDirection env vUv)).1 →
      main env vUv =
        ⟨(env.tDiffuse vUv).x, (env.tDiffuse vUv).y, (env.tDiffuse vUv).z, 1⟩) := by
  constructor
  · intro h
    have hcond : ¬((raySphereIntersect env.uPlanetCenter env.upAtmosphereRadius
        env.uCameraPos (viewRayDirection env vUv)).1 ≥ 0 ∧
        (raySphereIntersect env.uPlanetCenter env.upAtmosphereRadius
          env.uCameraPos (viewRayDirection env vUv)).2 > 0) := by
      rintro ⟨h1, h2⟩
      rcases h with h | h <;> linarith
    simp only [main]
    rw [if_neg hcond]
  · intro hbg hlt
    simp only [main]
    by_cases hcond : (raySphereIntersect env.uPlanetCenter env.upAtmosphereRadius
        env.uCameraPos (viewRayDirection env vUv)).1 ≥ 0 ∧
        (raySphereIntersect env.uPlanetCenter env.upAtmosphereRadius
          env.uCameraPos (viewRayDirection env vUv)).2 > 0
    · rw [if_pos hcond, if_neg hbg, if_pos hbg, if_pos hlt,
        if_neg (lt_irrefl (0:ℝ))]
    · rw [if_neg hcond]

/-- A concrete shader environment with zero camera matrices, used to witness
the passthrough theorem. -/
def envZero : ShaderEnv where
  uLightDir := ⟨0, 0, 1⟩
  uPlanetRadius := 1
  uPlanetCenter := ⟨0, 0, 5⟩
  uScatterCoefficients := ⟨0, 0, 0⟩
  upAtmosphereRadius := 2
  upDensityFalloff := 1
  tDiffuse := fun _ => ⟨1 / 2, 1 / 3, 1 / 4, 1⟩
  tDepth := fun _ => 1
  uCameraPos := ⟨0, 0, 0⟩
  cameraNear := 1
  cameraFar := 10
  cameraInverseProjection := fun _ _ => 0
  cameraWorldMatrix := fun _ _ => 0

/-- Witness for C8 at the concrete environment. -/
theorem main_passthrough_witness :
    main envZero ⟨1 / 2, 1 / 2⟩ =
      ⟨(envZero.tDiffuse ⟨1 / 2, 1 / 2⟩).x, (envZero.tDiffuse ⟨1 / 2, 1 / 2⟩).y,
        (envZero.tDiffuse ⟨1 / 2, 1 / 2⟩).z, 1⟩ := by
  apply (main_passthrough envZero ⟨1 / 2, 1 / 2⟩).1
  right
  have hdir : viewRayDirection envZero ⟨1 / 2, 1 / 2⟩ = ⟨0, 0, 0⟩ := by
    simp [viewRayDirection, mulVec4, envZero, Vec3.normalize]
    ext <;> simp
  rw [hdir]
  simp only [raySphereIntersect, Vec3.dot, Vec3.sub_x, Vec3.sub_y, Vec3.sub_z, envZero]
  norm_num

end
